import Mathlib

/-
Verification of the site-checker monitoring core.

Shallow embedding of the Python sources of the repository:
  * monitor/database.py   — SQLite-backed StateStore (site state, incidents,
    reminders, mutes, statistics), embedded as pure state-passing functions
    over an explicit `DB` value.  Timestamps (ISO-8601 strings in SQLite,
    totally ordered for a fixed UTC offset) are modelled as `Int` seconds;
    every operation that reads the wall clock takes the instant as an
    explicit `now : Int` argument.
  * monitor/ssl_checker.py — hostname/certificate matching.  The IDNA
    encoder invoked by `_to_punycode` is the Python standard library codec
    (external to the repository) and is therefore passed as an explicit
    function argument `toPuny`.
  * monitor/keyword_checker.py — keyword scanning.
  * monitor/retry_logic.py — the retry loop; the outcome of the i-th
    network probe is supplied as `attempts : Nat → CheckResult`.
-/

namespace SiteChecker

/-- Values `UP` / `DOWN` of the `status` column of `sites_state`. -/
inductive Status where
  | up
  | down
deriving Repr, DecidableEq

/-- Embeds the `SiteState` dataclass of monitor/database.py (one row of
`sites_state`; the bookkeeping columns `created_at` / `updated_at` are not
part of the dataclass and are not modelled). -/
structure SiteState where
  status : Status
  fail_streak : Nat
  last_status_change : Int
  last_notify_at : Option Int := none
  reminder_count : Nat := 0
  next_reminder_at : Option Int := none
  current_incident_id : Option Nat := none
deriving Repr, DecidableEq

/-- Embeds the `Incident` dataclass (one row of `incidents`). -/
structure Incident where
  id : Nat
  site_id : String
  started_at : Int
  ended_at : Option Int := none
  duration_seconds : Option Int := none
  error_type : Option String := none
  error_message : Option String := none
deriving Repr, DecidableEq

/-- One row of the `user_mutes` table. -/
structure Mute where
  user_id : Int
  site_id : String
  muted_at : Int
  incident_start : Int
deriving Repr, DecidableEq

/-- The SQLite database state: `sites_state`, `incidents` and `user_mutes`
tables plus the AUTOINCREMENT counter feeding `incidents.id`. -/
structure DB where
  sites : List (String × SiteState)
  incidents : List Incident
  mutes : List Mute
  next_incident_id : Nat
deriving Repr, DecidableEq

/-- Fresh database: empty tables, AUTOINCREMENT starts at 1. -/
def initDB : DB := { sites := [], incidents := [], mutes := [], next_incident_id := 1 }

/-- Models `SELECT * FROM sites_state WHERE site_id = ?` (first matching row). -/
def lookupSite : List (String × SiteState) → String → Option SiteState
  | [], _ => none
  | p :: rest, sid => if p.1 == sid then some p.2 else lookupSite rest sid

/-- Models `UPDATE sites_state SET ... WHERE site_id = ?`. -/
def writeSite (l : List (String × SiteState)) (sid : String) (st : SiteState) :
    List (String × SiteState) :=
  l.map (fun p => if p.1 == sid then (sid, st) else p)

def DB.findState (db : DB) (sid : String) : Option SiteState :=
  lookupSite db.sites sid

def DB.setState (db : DB) (sid : String) (st : SiteState) : DB :=
  { db with sites := writeSite db.sites sid st }

/-- Python truthiness of a nullable integer column (`None` and `0` are falsy),
as used by `if state.current_incident_id:` in `update_on_success`. -/
def truthyId : Option Nat → Bool
  | none => false
  | some n => n != 0

/-- Python truthiness of `incident.duration_seconds` as used by the
`closed_incidents` filter in `get_site_stats`. -/
def truthyDur : Option Int → Bool
  | none => false
  | some d => d != 0

/-- Embeds `get_next_reminder_interval` of monitor/database.py:
`min(15 * 2**reminder_count, 240)` minutes. -/
def get_next_reminder_interval (reminder_count : Nat) : Nat :=
  min (15 * 2 ^ reminder_count) 240

/-- Embeds `Database._calc_next_reminder`: now plus the interval, in seconds. -/
def calc_next_reminder (reminder_count : Nat) (now : Int) : Int :=
  now + 60 * (get_next_reminder_interval reminder_count : Int)

/-- Embeds `Database.get_state`: returns the row, inserting a fresh `UP` row with
zero fail streak when absent. -/
def get_state (db : DB) (site_id : String) (now : Int) : SiteState × DB :=
  match lookupSite db.sites site_id with
  | some st => (st, db)
  | none =>
    let st : SiteState :=
      { status := Status.up, fail_streak := 0, last_status_change := now }
    (st, { db with sites := db.sites ++ [(site_id, st)] })

/-- Embeds `Database._create_incident`: inserts an open incident row and returns its
AUTOINCREMENT id. -/
def create_incident (db : DB) (site_id : String)
    (error_type error_message : Option String) (now : Int) : Nat × DB :=
  let iid := db.next_incident_id
  (iid,
    { db with
        incidents := db.incidents ++
          [{ id := iid, site_id := site_id, started_at := now,
             error_type := error_type, error_message := error_message }],
        next_incident_id := iid + 1 })

/-- The row update performed by `Database._close_incident` on every incident
row with the given id. -/
def closeIncUpd (incident_id : Nat) (now duration : Int) (i : Incident) : Incident :=
  if i.id == incident_id then
    { i with ended_at := some now, duration_seconds := some duration }
  else i

/-- Embeds `Database._close_incident`: looks the incident up, stamps `ended_at` and
`duration_seconds = now - started_at`, and returns the duration (0 when the
row does not exist). -/
def close_incident (db : DB) (incident_id : Nat) (now : Int) : Int × DB :=
  match db.incidents.find? (fun i => i.id == incident_id) with
  | none => (0, db)
  | some inc =>
    let duration := now - inc.started_at
    (duration,
      { db with incidents := db.incidents.map (closeIncUpd incident_id now duration) })

/-- Embeds `Database.update_on_success`.  Returns `(status_changed, downtime_seconds)`
and the updated database. -/
def update_on_success (db : DB) (site_id : String) (now : Int) :
    (Bool × Option Int) × DB :=
  let r := get_state db site_id now
  let state := r.1
  let db1 := r.2
  if state.status = Status.down then
    let rc : Option Int × DB :=
      if truthyId state.current_incident_id then
        match state.current_incident_id with
        | some iid =>
          let c := close_incident db1 iid now
          (some c.1, c.2)
        | none => (none, db1)
      else (none, db1)
    let db2 := rc.2
    let db3 := { db2 with mutes := db2.mutes.filter (fun m => m.site_id != site_id) }
    let st' : SiteState :=
      { status := Status.up, fail_streak := 0, last_status_change := now,
        last_notify_at := some now, reminder_count := 0,
        next_reminder_at := none, current_incident_id := none }
    ((true, rc.1), db3.setState site_id st')
  else
    ((false, none), db1.setState site_id { state with fail_streak := 0 })

/-- Embeds `Database.update_on_failure`.  The `retry_count` argument is accepted but
never read, exactly as in the source.  Returns `status_changed` and the
updated database. -/
def update_on_failure (db : DB) (site_id : String) (retry_count : Int)
    (error_type error_message : Option String) (now : Int) : Bool × DB :=
  let r := get_state db site_id now
  let state := r.1
  let db1 := r.2
  let new_fail_streak := state.fail_streak + 1
  if state.status = Status.up ∧ 1 ≤ new_fail_streak then
    let ci := create_incident db1 site_id error_type error_message now
    let incident_id := ci.1
    let db2 := ci.2
    let next_reminder := calc_next_reminder 0 now
    let st' : SiteState :=
      { status := Status.down, fail_streak := new_fail_streak,
        last_status_change := now, last_notify_at := some now,
        reminder_count := 0, next_reminder_at := some next_reminder,
        current_incident_id := some incident_id }
    (true, db2.setState site_id st')
  else
    (false, db1.setState site_id { state with fail_streak := new_fail_streak })

/-- Embeds `Database.mark_reminder_sent`: bumps `reminder_count`, reschedules
`next_reminder_at`, and returns the next interval in minutes. -/
def mark_reminder_sent (db : DB) (site_id : String) (now : Int) : Nat × DB :=
  let r := get_state db site_id now
  let state := r.1
  let db1 := r.2
  let new_count := state.reminder_count + 1
  let next_interval := get_next_reminder_interval new_count
  let next_reminder := calc_next_reminder new_count now
  (next_interval,
    db1.setState site_id
      { state with reminder_count := new_count, next_reminder_at := some next_reminder })

/-- Embeds `Database.mute_for_user`: inserts a `(user_id, site_id)` mute row
(recording `last_status_change` as `incident_start`); `False` when the
primary key already exists. -/
def mute_for_user (db : DB) (user_id : Int) (site_id : String) (now : Int) :
    Bool × DB :=
  let r := get_state db site_id now
  let state := r.1
  let db1 := r.2
  if db1.mutes.any (fun m => m.user_id == user_id && m.site_id == site_id) then
    (false, db1)
  else
    (true,
      { db1 with
          mutes := db1.mutes ++
            [{ user_id := user_id, site_id := site_id, muted_at := now,
               incident_start := state.last_status_change }] })

/-- Embeds `Database.get_muted_users`: the users with a mute row for the site. -/
def get_muted_users (db : DB) (site_id : String) : List Int :=
  (db.mutes.filter (fun m => m.site_id == site_id)).map Mute.user_id

/-- The open incident rows of a site (`ended_at IS NULL`). -/
def openIncs (db : DB) (site_id : String) : List Incident :=
  db.incidents.filter (fun i => i.site_id == site_id && i.ended_at == none)

theorem lookupSite_writeSite_self (l : List (String × SiteState)) (sid : String)
    (st : SiteState) :
    lookupSite (writeSite l sid st) sid = (lookupSite l sid).map (fun _ => st) := by
  induction l with
  | nil => rfl
  | cons p rest ih =>
    by_cases h : p.1 == sid
    · simp [writeSite, lookupSite, h]
    · simpa [writeSite, lookupSite, h] using ih

theorem lookupSite_append_none (l : List (String × SiteState)) (sid : String)
    (st : SiteState) (h : lookupSite l sid = none) :
    lookupSite (l ++ [(sid, st)]) sid = some st := by
  induction l with
  | nil => simp [lookupSite]
  | cons p rest ih =>
    rw [lookupSite] at h
    by_cases hp : p.1 == sid
    · rw [if_pos hp] at h
      exact absurd h (by simp)
    · rw [if_neg hp] at h
      rw [List.cons_append, lookupSite, if_neg hp]
      exact ih h

theorem get_state_found (db : DB) (sid : String) (now : Int) (st : SiteState)
    (h : lookupSite db.sites sid = some st) : get_state db sid now = (st, db) := by
  simp [get_state, h]

theorem get_state_self (db : DB) (sid : String) (now : Int) :
    lookupSite (get_state db sid now).2.sites sid = some (get_state db sid now).1 := by
  rcases h : lookupSite db.sites sid with _ | st
  · simp only [get_state, h]
    exact lookupSite_append_none _ _ _ h
  · simp [get_state, h]

theorem get_state_frame (db : DB) (sid : String) (now : Int) :
    (get_state db sid now).2.incidents = db.incidents
    ∧ (get_state db sid now).2.mutes = db.mutes
    ∧ (get_state db sid now).2.next_incident_id = db.next_incident_id := by
  rcases h : lookupSite db.sites sid with _ | st <;> simp [get_state, h]

/-- Re-running an operation after its internal `get_state` has materialised
the row does not change the row returned. -/
theorem get_state_idem (db : DB) (sid : String) (now now' : Int) :
    get_state (get_state db sid now).2 sid now' = get_state db sid now := by
  have h := get_state_self db sid now
  calc get_state (get_state db sid now).2 sid now'
      = ((get_state db sid now).1, (get_state db sid now).2) :=
        get_state_found _ _ _ _ h
    _ = get_state db sid now := rfl

theorem close_incident_frame (db : DB) (iid : Nat) (now : Int) :
    (close_incident db iid now).2.sites = db.sites
    ∧ (close_incident db iid now).2.mutes = db.mutes
    ∧ (close_incident db iid now).2.next_incident_id = db.next_incident_id := by
  rcases h : db.incidents.find? (fun i => i.id == iid) with _ | inc <;>
    simp [close_incident, h]

theorem close_incident_found (db : DB) (iid : Nat) (now : Int) (inc : Incident)
    (hfound : db.incidents.find? (fun i => i.id == iid) = some inc) :
    close_incident db iid now =
      (now - inc.started_at,
       { db with incidents :=
           db.incidents.map (closeIncUpd iid now (now - inc.started_at)) }) := by
  simp [close_incident, hfound]

/-- Running `update_on_success` on a site already `UP`: only the fail streak is reset. -/
theorem update_on_success_up (db : DB) (sid : String) (st : SiteState) (now : Int)
    (hfind : lookupSite db.sites sid = some st) (hup : st.status = Status.up) :
    update_on_success db sid now =
      ((false, none), db.setState sid { st with fail_streak := 0 }) := by
  have hg : get_state db sid now = (st, db) := get_state_found _ _ _ _ hfind
  simp [update_on_success, hg, hup]

/-- The `UP`-state row written by the recovery branch of `update_on_success`. -/
def recoveredState (now : Int) : SiteState :=
  { status := Status.up, fail_streak := 0, last_status_change := now,
    last_notify_at := some now, reminder_count := 0,
    next_reminder_at := none, current_incident_id := none }

/-- Running `update_on_success` on a `DOWN` site, whatever `current_incident_id`
holds: reports the transition, deletes every mute of the site, and writes the
reset `UP` row. -/
theorem update_on_success_down_parts (db : DB) (sid : String) (st : SiteState)
    (now : Int) (hfind : lookupSite db.sites sid = some st)
    (hdown : st.status = Status.down) :
    (update_on_success db sid now).1.1 = true
    ∧ (update_on_success db sid now).2.mutes
        = db.mutes.filter (fun m => m.site_id != sid)
    ∧ lookupSite (update_on_success db sid now).2.sites sid
        = some (recoveredState now)
    ∧ (update_on_success db sid now).2.next_incident_id = db.next_incident_id := by
  have hg : get_state db sid now = (st, db) := get_state_found _ _ _ _ hfind
  rcases hcid : st.current_incident_id with _ | iid
  · simp [update_on_success, hg, hdown, hcid, truthyId, DB.setState,
      lookupSite_writeSite_self, hfind, recoveredState]
  · by_cases hz : iid = 0
    · simp [update_on_success, hg, hdown, hcid, hz, truthyId, DB.setState,
        lookupSite_writeSite_self, hfind, recoveredState]
    · rcases hf : db.incidents.find? (fun i => i.id == iid) with _ | inc
      · simp [update_on_success, hg, hdown, hcid, hz, truthyId, close_incident, hf,
          DB.setState, lookupSite_writeSite_self, hfind, recoveredState]
      · simp [update_on_success, hg, hdown, hcid, hz, truthyId, close_incident, hf,
          DB.setState, lookupSite_writeSite_self, hfind, recoveredState]

/-- Running `update_on_success` on a `DOWN` site whose open incident is resolvable:
full characterisation of the resulting database. -/
theorem update_on_success_down_eq (db : DB) (sid : String) (st : SiteState)
    (iid : Nat) (inc : Incident) (now : Int)
    (hfind : lookupSite db.sites sid = some st)
    (hdown : st.status = Status.down)
    (hcid : st.current_incident_id = some iid) (hiid : iid ≠ 0)
    (hfound : db.incidents.find? (fun i => i.id == iid) = some inc) :
    update_on_success db sid now =
      ((true, some (now - inc.started_at)),
       { sites := writeSite db.sites sid (recoveredState now),
         incidents := db.incidents.map (closeIncUpd iid now (now - inc.started_at)),
         mutes := db.mutes.filter (fun m => m.site_id != sid),
         next_incident_id := db.next_incident_id }) := by
  have hg : get_state db sid now = (st, db) := get_state_found _ _ _ _ hfind
  simp [update_on_success, hg, hdown, hcid, hiid, truthyId, close_incident, hfound,
    DB.setState, recoveredState]

/-- The `DOWN`-state row written by the failure branch of `update_on_failure`. -/
def failedState (fail_streak : Nat) (incident_id : Nat) (now : Int) : SiteState :=
  { status := Status.down, fail_streak := fail_streak,
    last_status_change := now, last_notify_at := some now,
    reminder_count := 0, next_reminder_at := some (calc_next_reminder 0 now),
    current_incident_id := some incident_id }

/-- Running `update_on_failure` on an `UP` site: opens one incident and transitions. -/
theorem update_on_failure_up_eq (db : DB) (sid : String) (st : SiteState)
    (retry_count : Int) (et em : Option String) (now : Int)
    (hfind : lookupSite db.sites sid = some st) (hup : st.status = Status.up) :
    update_on_failure db sid retry_count et em now =
      (true,
       { sites := writeSite db.sites sid
           (failedState (st.fail_streak + 1) db.next_incident_id now),
         incidents := db.incidents ++
           [{ id := db.next_incident_id, site_id := sid, started_at := now,
              ended_at := none, duration_seconds := none,
              error_type := et, error_message := em }],
         mutes := db.mutes,
         next_incident_id := db.next_incident_id + 1 }) := by
  have hg : get_state db sid now = (st, db) := get_state_found _ _ _ _ hfind
  simp [update_on_failure, hg, hup, create_incident, DB.setState, failedState]

/-- Running `update_on_failure` on a site already `DOWN`: only the fail streak grows. -/
theorem update_on_failure_down_eq (db : DB) (sid : String) (st : SiteState)
    (retry_count : Int) (et em : Option String) (now : Int)
    (hfind : lookupSite db.sites sid = some st) (hdown : st.status = Status.down) :
    update_on_failure db sid retry_count et em now =
      (false, db.setState sid { st with fail_streak := st.fail_streak + 1 }) := by
  have hg : get_state db sid now = (st, db) := get_state_found _ _ _ _ hfind
  simp [update_on_failure, hg, hdown, DB.setState]

/-- Effect of `mark_reminder_sent`: bumps the count, reschedules, returns the interval. -/
theorem mark_reminder_sent_eq (db : DB) (sid : String) (st : SiteState) (now : Int)
    (hfind : lookupSite db.sites sid = some st) :
    mark_reminder_sent db sid now =
      (get_next_reminder_interval (st.reminder_count + 1),
       db.setState sid
         { st with reminder_count := st.reminder_count + 1,
                   next_reminder_at :=
                     some (calc_next_reminder (st.reminder_count + 1) now) }) := by
  have hg : get_state db sid now = (st, db) := get_state_found _ _ _ _ hfind
  simp [mark_reminder_sent, hg, DB.setState]

/-- Claim C2: a site `UP` with `fail_streak = 0` receiving one call of
`update_on_failure` — with any `retry_count`, `error_type` and
`error_message` — transitions to `DOWN`, appends exactly one new open
incident carrying that `error_type`, sets `fail_streak = 1` and
`reminder_count = 0`, and schedules the first reminder at `now + 15`
minutes.  No cross-sweep hysteresis: the very first failure transitions. -/
theorem C2_first_failure_opens_incident (db : DB) (sid : String) (st : SiteState)
    (retry_count : Int) (et em : Option String) (now : Int)
    (hfind : lookupSite db.sites sid = some st)
    (hup : st.status = Status.up) (h0 : st.fail_streak = 0) :
    (update_on_failure db sid retry_count et em now).1 = true
    ∧ lookupSite (update_on_failure db sid retry_count et em now).2.sites sid
        = some { status := Status.down, fail_streak := 1, last_status_change := now,
                 last_notify_at := some now, reminder_count := 0,
                 next_reminder_at := some (now + 60 * 15),
                 current_incident_id := some db.next_incident_id }
    ∧ (update_on_failure db sid retry_count et em now).2.incidents
        = db.incidents ++
          [{ id := db.next_incident_id, site_id := sid, started_at := now,
             ended_at := none, duration_seconds := none,
             error_type := et, error_message := em }] := by
  have hcalc : calc_next_reminder 0 now = now + 60 * 15 := by
    norm_num [calc_next_reminder, get_next_reminder_interval]
  rw [update_on_failure_up_eq db sid st retry_count et em now hfind hup]
  refine ⟨rfl, ?_, rfl⟩
  simp [lookupSite_writeSite_self, hfind, failedState, h0, hcalc]

def siteS : String := "s"

def etW : String := "timeout_kind"

def upRowW : SiteState :=
  { status := Status.up, fail_streak := 0, last_status_change := 0 }

def dbUpW : DB :=
  { sites := [(siteS, upRowW)], incidents := [], mutes := [], next_incident_id := 1 }

theorem C2_witness :
    (update_on_failure dbUpW siteS 3 (some etW) none 5).1 = true
    ∧ lookupSite (update_on_failure dbUpW siteS 3 (some etW) none 5).2.sites siteS
        = some { status := Status.down, fail_streak := 1, last_status_change := 5,
                 last_notify_at := some 5, reminder_count := 0,
                 next_reminder_at := some (5 + 60 * 15),
                 current_incident_id := some dbUpW.next_incident_id }
    ∧ (update_on_failure dbUpW siteS 3 (some etW) none 5).2.incidents
        = dbUpW.incidents ++
          [{ id := dbUpW.next_incident_id, site_id := siteS, started_at := 5,
             ended_at := none, duration_seconds := none,
             error_type := some etW, error_message := none }] :=
  C2_first_failure_opens_incident dbUpW siteS upRowW 3 (some etW) none 5
    (by decide) (by decide) (by decide)

/-- Claim C3: a `DOWN` site whose open incident started at `T`, receiving
`update_on_success` at `T + 90`, reports `(statusChanged, downtime) =
(true, 90)`, stamps `ended_at` and `duration_seconds = 90` on that incident,
deletes every mute row of the site, and writes the fully reset `UP` row
(`fail_streak = 0`, `reminder_count = 0`, `next_reminder_at = NULL`,
`current_incident_id = NULL`). -/
theorem C3_recovery_closes_incident (db : DB) (sid : String) (st : SiteState)
    (iid : Nat) (inc : Incident) (T : Int)
    (hfind : lookupSite db.sites sid = some st)
    (hdown : st.status = Status.down)
    (hcid : st.current_incident_id = some iid) (hiid : iid ≠ 0)
    (hfound : db.incidents.find? (fun i => i.id == iid) = some inc)
    (hT : inc.started_at = T) :
    (update_on_success db sid (T + 90)).1 = (true, some 90)
    ∧ (update_on_success db sid (T + 90)).2.incidents
        = db.incidents.map (closeIncUpd iid (T + 90) 90)
    ∧ (update_on_success db sid (T + 90)).2.mutes
        = db.mutes.filter (fun m => m.site_id != sid)
    ∧ lookupSite (update_on_success db sid (T + 90)).2.sites sid
        = some { status := Status.up, fail_streak := 0, last_status_change := T + 90,
                 last_notify_at := some (T + 90), reminder_count := 0,
                 next_reminder_at := none, current_incident_id := none } := by
  have h90 : T + 90 - inc.started_at = 90 := by rw [hT]; ring
  rw [update_on_success_down_eq db sid st iid inc (T + 90) hfind hdown hcid hiid hfound]
  rw [h90]
  refine ⟨rfl, rfl, rfl, ?_⟩
  simp [lookupSite_writeSite_self, hfind, recoveredState]

def downRowW : SiteState :=
  { status := Status.down, fail_streak := 1, last_status_change := 0,
    last_notify_at := some 0, reminder_count := 0,
    next_reminder_at := some 900, current_incident_id := some 1 }

def openIncW : Incident :=
  { id := 1, site_id := siteS, started_at := 0, error_type := some etW }

def dbDownW : DB :=
  { sites := [(siteS, downRowW)], incidents := [openIncW],
    mutes := [{ user_id := 7, site_id := siteS, muted_at := 10, incident_start := 0 }],
    next_incident_id := 2 }

theorem C3_witness :
    (update_on_success dbDownW siteS (0 + 90)).1 = (true, some 90)
    ∧ (update_on_success dbDownW siteS (0 + 90)).2.incidents
        = dbDownW.incidents.map (closeIncUpd 1 (0 + 90) 90)
    ∧ (update_on_success dbDownW siteS (0 + 90)).2.mutes
        = dbDownW.mutes.filter (fun m => m.site_id != siteS)
    ∧ lookupSite (update_on_success dbDownW siteS (0 + 90)).2.sites siteS
        = some { status := Status.up, fail_streak := 0, last_status_change := 0 + 90,
                 last_notify_at := some (0 + 90), reminder_count := 0,
                 next_reminder_at := none, current_incident_id := none } :=
  C3_recovery_closes_incident dbDownW siteS downRowW 1 openIncW 0
    (by decide) (by decide) (by decide) (by decide) (by decide) (by decide)

/-- Claim C9: `update_on_success` on a site already `UP` is idempotent —
once or twice in a row it reports `(false, none)`, leaves `fail_streak` at 0,
creates or closes no incident, touches no mutes, and leaves the observable
site state unchanged. -/
theorem C9_success_idempotent_on_up (db : DB) (sid : String) (st : SiteState)
    (now now' : Int)
    (hfind : lookupSite db.sites sid = some st) (hup : st.status = Status.up) :
    (update_on_success db sid now).1 = (false, none)
    ∧ lookupSite (update_on_success db sid now).2.sites sid
        = some { st with fail_streak := 0 }
    ∧ (update_on_success db sid now).2.incidents = db.incidents
    ∧ (update_on_success db sid now).2.mutes = db.mutes
    ∧ (update_on_success db sid now).2.next_incident_id = db.next_incident_id
    ∧ (update_on_success (update_on_success db sid now).2 sid now').1 = (false, none)
    ∧ lookupSite (update_on_success (update_on_success db sid now).2 sid now').2.sites sid
        = some { st with fail_streak := 0 }
    ∧ (update_on_success (update_on_success db sid now).2 sid now').2.incidents
        = db.incidents
    ∧ (update_on_success (update_on_success db sid now).2 sid now').2.mutes = db.mutes
    ∧ (update_on_success (update_on_success db sid now).2 sid now').2.next_incident_id
        = db.next_incident_id
    ∧ (st.fail_streak = 0 → ({ st with fail_streak := 0 } : SiteState) = st) := by
  have e1 := update_on_success_up db sid st now hfind hup
  have hfind1 : lookupSite (update_on_success db sid now).2.sites sid
      = some { st with fail_streak := 0 } := by
    rw [e1]
    simp [DB.setState, lookupSite_writeSite_self, hfind]
  have hup1 : ({ st with fail_streak := 0 } : SiteState).status = Status.up := hup
  have e2 := update_on_success_up (update_on_success db sid now).2 sid
    { st with fail_streak := 0 } now' hfind1 hup1
  refine ⟨by rw [e1], hfind1, by rw [e1]; rfl, by rw [e1]; rfl, by rw [e1]; rfl,
    by rw [e2], ?_, ?_, ?_, ?_, ?_⟩
  · rw [e2]
    simp [DB.setState, lookupSite_writeSite_self, hfind1]
  · rw [e2, e1]
    simp [DB.setState]
  · rw [e2, e1]
    simp [DB.setState]
  · rw [e2, e1]
    simp [DB.setState]
  · intro h0
    cases st
    simp_all

theorem C9_witness :
    (update_on_success dbUpW siteS 3).1 = (false, none)
    ∧ lookupSite (update_on_success dbUpW siteS 3).2.sites siteS
        = some { upRowW with fail_streak := 0 }
    ∧ (update_on_success dbUpW siteS 3).2.incidents = dbUpW.incidents
    ∧ (update_on_success dbUpW siteS 3).2.mutes = dbUpW.mutes
    ∧ (update_on_success dbUpW siteS 3).2.next_incident_id = dbUpW.next_incident_id
    ∧ (update_on_success (update_on_success dbUpW siteS 3).2 siteS 4).1 = (false, none)
    ∧ lookupSite (update_on_success (update_on_success dbUpW siteS 3).2 siteS 4).2.sites siteS
        = some { upRowW with fail_streak := 0 }
    ∧ (update_on_success (update_on_success dbUpW siteS 3).2 siteS 4).2.incidents
        = dbUpW.incidents
    ∧ (update_on_success (update_on_success dbUpW siteS 3).2 siteS 4).2.mutes = dbUpW.mutes
    ∧ (update_on_success (update_on_success dbUpW siteS 3).2 siteS 4).2.next_incident_id
        = dbUpW.next_incident_id
    ∧ (upRowW.fail_streak = 0 → ({ upRowW with fail_streak := 0 } : SiteState) = upRowW) :=
  C9_success_idempotent_on_up dbUpW siteS upRowW 3 4 (by decide) (by decide)

/-- Claim C6: mutes never survive a recovery.  If a user is muted for a
`DOWN` site and the site recovers (`update_on_success` from `DOWN`), every
mute row of the site is deleted; when the site goes `DOWN` again later, the
muted set of the new incident is empty, so the user is not in it —
regardless of when the mute was created. -/
theorem C6_mute_cleared_on_recovery (db : DB) (sid : String) (st : SiteState)
    (uid : Int) (now1 now2 : Int) (retry_count : Int) (et em : Option String)
    (hfind : lookupSite db.sites sid = some st)
    (hdown : st.status = Status.down)
    (hmuted : uid ∈ get_muted_users db sid) :
    get_muted_users (update_on_success db sid now1).2 sid = []
    ∧ get_muted_users
        (update_on_failure (update_on_success db sid now1).2 sid retry_count et em now2).2
        sid = []
    ∧ uid ∉ get_muted_users
        (update_on_failure (update_on_success db sid now1).2 sid retry_count et em now2).2
        sid := by
  obtain ⟨-, hmutes, hstate, -⟩ :=
    update_on_success_down_parts db sid st now1 hfind hdown
  have hclear : get_muted_users (update_on_success db sid now1).2 sid = [] := by
    rw [get_muted_users, hmutes, List.filter_filter]
    have hfalse : ∀ m : Mute, ((m.site_id == sid) && (m.site_id != sid)) = false := by
      intro m
      by_cases h : m.site_id == sid <;> simp [h, bne]
    simp [hfalse]
  have hup1 : (recoveredState now1).status = Status.up := rfl
  have e3 := update_on_failure_up_eq (update_on_success db sid now1).2 sid
    (recoveredState now1) retry_count et em now2 hstate hup1
  have hsame : get_muted_users
      (update_on_failure (update_on_success db sid now1).2 sid retry_count et em now2).2
      sid = get_muted_users (update_on_success db sid now1).2 sid := by
    rw [e3, get_muted_users, get_muted_users]
  refine ⟨hclear, by rw [hsame, hclear], by rw [hsame, hclear]; simp⟩

theorem C6_witness :
    get_muted_users (update_on_success dbDownW siteS 90).2 siteS = []
    ∧ get_muted_users
        (update_on_failure (update_on_success dbDownW siteS 90).2 siteS 3
          (some etW) none 200).2 siteS = []
    ∧ (7 : Int) ∉ get_muted_users
        (update_on_failure (update_on_success dbDownW siteS 90).2 siteS 3
          (some etW) none 200).2 siteS :=
  C6_mute_cleared_on_recovery dbDownW siteS downRowW 7 90 200 3 (some etW) none
    (by decide) (by decide) (by decide)

/-- One StateStore operation on a fixed site, with its wall-clock instant and
(for failures) the arguments the scheduler passes. -/
inductive StoreOp where
  | gets (now : Int)
  | success (now : Int)
  | failure (retry_count : Int) (error_type error_message : Option String) (now : Int)
  | reminder (now : Int)
deriving Repr, DecidableEq

/-- Applies one StateStore operation to the database. -/
def applyOp (sid : String) (db : DB) : StoreOp → DB
  | StoreOp.gets now => (get_state db sid now).2
  | StoreOp.success now => (update_on_success db sid now).2
  | StoreOp.failure retry_count et em now => (update_on_failure db sid retry_count et em now).2
  | StoreOp.reminder now => (mark_reminder_sent db sid now).2

/-- Runs a sequence of StateStore operations on a fixed site. -/
def runOps (sid : String) (db : DB) : List StoreOp → DB
  | [] => db
  | op :: ops => runOps sid (applyOp sid db op) ops

/-- Inductive strengthening of the C1 invariant: the AUTOINCREMENT counter is
at least 1, all incidents belong to the site under consideration, a missing
row means no incidents, an `UP` row has no current incident and no open
incident rows, and a `DOWN` row points (with a nonzero id) at the unique
open incident row. -/
def StrongInv (db : DB) (sid : String) : Prop :=
  1 ≤ db.next_incident_id
  ∧ (∀ i ∈ db.incidents, i.site_id = sid)
  ∧ (lookupSite db.sites sid = none → db.incidents = [])
  ∧ (∀ st, lookupSite db.sites sid = some st →
      (st.status = Status.up → st.current_incident_id = none ∧ openIncs db sid = [])
      ∧ (st.status = Status.down →
          ∃ iid, st.current_incident_id = some iid ∧ 1 ≤ iid
            ∧ (openIncs db sid).map Incident.id = [iid]))

theorem strongInv_initDB (sid : String) : StrongInv initDB sid := by
  refine ⟨le_refl 1, ?_, fun _ => rfl, ?_⟩
  · intro i hi
    exact absurd hi (by simp [initDB])
  · intro st hst
    exact absurd hst (by simp [initDB, lookupSite])

theorem openIncs_setState (db : DB) (sid sid' : String) (st : SiteState) :
    openIncs (db.setState sid' st) sid = openIncs db sid := rfl

theorem closeIncUpd_site_id (iid : Nat) (now dur : Int) (i : Incident) :
    (closeIncUpd iid now dur i).site_id = i.site_id := by
  by_cases h : i.id == iid <;> simp [closeIncUpd, h]

theorem closeIncUpd_ended_at (iid : Nat) (now dur : Int) (i : Incident) :
    (closeIncUpd iid now dur i).ended_at
      = if i.id == iid then some now else i.ended_at := by
  by_cases h : i.id == iid <;> simp [closeIncUpd, h]

theorem map_eq_single {α β : Type} (f : α → β) (l : List α) (b : β)
    (h : l.map f = [b]) : ∃ a, l = [a] ∧ f a = b := by
  cases l with
  | nil => exact absurd h (by simp)
  | cons a t =>
    rw [List.map_cons] at h
    injection h with h1 h2
    have ht : t = [] := by
      cases t with
      | nil => rfl
      | cons c r => exact absurd h2 (by simp)
    exact ⟨a, by rw [ht], h1⟩

theorem strongInv_get_state (db : DB) (sid : String) (now : Int)
    (h : StrongInv db sid) : StrongInv (get_state db sid now).2 sid := by
  obtain ⟨h1, h2, h3, h4⟩ := h
  rcases hl : lookupSite db.sites sid with _ | st
  · have hemp : db.incidents = [] := h3 hl
    simp only [get_state, hl]
    refine ⟨h1, h2, fun _ => hemp, ?_⟩
    intro st' hst'
    rw [lookupSite_append_none _ _ _ hl] at hst'
    injection hst' with he
    subst he
    constructor
    · intro _
      refine ⟨rfl, ?_⟩
      simp [openIncs, hemp]
    · intro hd
      exact absurd hd (by simp)
  · simp only [get_state, hl]
    exact ⟨h1, h2, h3, h4⟩

theorem update_on_success_get (db : DB) (sid : String) (now : Int) :
    update_on_success db sid now = update_on_success (get_state db sid now).2 sid now := by
  simp only [update_on_success, get_state_idem]

theorem update_on_failure_get (db : DB) (sid : String) (retry_count : Int)
    (et em : Option String) (now : Int) :
    update_on_failure db sid retry_count et em now
      = update_on_failure (get_state db sid now).2 sid retry_count et em now := by
  simp only [update_on_failure, get_state_idem]

theorem mark_reminder_sent_get (db : DB) (sid : String) (now : Int) :
    mark_reminder_sent db sid now = mark_reminder_sent (get_state db sid now).2 sid now := by
  simp only [mark_reminder_sent, get_state_idem]

theorem strongInv_succ_found (db : DB) (sid : String) (st : SiteState) (now : Int)
    (hfind : lookupSite db.sites sid = some st) (h : StrongInv db sid) :
    StrongInv (update_on_success db sid now).2 sid := by
  obtain ⟨h1, h2, h3, h4⟩ := h
  cases hs : st.status with
  | up =>
    have e := update_on_success_up db sid st now hfind hs
    rw [e]
    obtain ⟨hcid, hopen⟩ := (h4 st hfind).1 hs
    refine ⟨h1, h2, ?_, ?_⟩
    · intro hnone
      rw [DB.setState] at hnone
      simp only [lookupSite_writeSite_self, hfind] at hnone
      exact absurd hnone (by simp)
    · intro st' hst'
      rw [DB.setState] at hst'
      simp only [lookupSite_writeSite_self, hfind] at hst'
      injection hst' with he
      subst he
      constructor
      · intro _
        exact ⟨hcid, by rw [openIncs_setState]; exact hopen⟩
      · intro hd
        simp only at hd
        rw [hs] at hd
        exact absurd hd (by simp)
  | down =>
    obtain ⟨iid, hcid, hge, hmap⟩ := (h4 st hfind).2 hs
    obtain ⟨inc₀, hsingle, hid0⟩ := map_eq_single Incident.id (openIncs db sid) iid hmap
    have hmem : inc₀ ∈ openIncs db sid := by rw [hsingle]; exact List.mem_singleton.mpr rfl
    have hmem' : inc₀ ∈ db.incidents ∧
        (inc₀.site_id == sid && inc₀.ended_at == none) = true :=
      List.mem_filter.mp hmem
    have hex : (db.incidents.find? (fun i => i.id == iid)).isSome :=
      List.find?_isSome.mpr ⟨inc₀, hmem'.1, by simp [hid0]⟩
    obtain ⟨incF, hfound⟩ := Option.isSome_iff_exists.mp hex
    have hiid : iid ≠ 0 := by omega
    have e := update_on_success_down_eq db sid st iid incF now hfind hs hcid hiid hfound
    rw [e]
    refine ⟨h1, ?_, ?_, ?_⟩
    · intro i hi
      obtain ⟨j, hj, hji⟩ := List.mem_map.mp hi
      rw [← hji, closeIncUpd_site_id]
      exact h2 j hj
    · intro hnone
      simp only [lookupSite_writeSite_self, hfind] at hnone
      exact absurd hnone (by simp)
    · intro st' hst'
      simp only [lookupSite_writeSite_self, hfind] at hst'
      injection hst' with he
      subst he
      constructor
      · intro _
        refine ⟨rfl, ?_⟩
        rw [openIncs, List.filter_eq_nil_iff]
        intro x hx
        obtain ⟨j, hj, hjx⟩ := List.mem_map.mp hx
        subst hjx
        intro hcontra
        have hsite : (closeIncUpd iid now (now - incF.started_at) j).site_id = j.site_id :=
          closeIncUpd_site_id _ _ _ _
        have hended := closeIncUpd_ended_at iid now (now - incF.started_at) j
        by_cases hjid : j.id == iid
        · rw [if_pos hjid] at hended
          simp only [Bool.and_eq_true, beq_iff_eq] at hcontra
          rw [hended] at hcontra
          exact absurd hcontra.2 (by simp)
        · rw [if_neg hjid] at hended
          simp only [Bool.and_eq_true, beq_iff_eq] at hcontra
          have hopen : j ∈ openIncs db sid := by
            rw [openIncs, List.mem_filter]
            refine ⟨hj, ?_⟩
            rw [hsite] at hcontra
            rw [hended] at hcontra
            simp [hcontra.1, hcontra.2]
          rw [hsingle, List.mem_singleton] at hopen
          subst hopen
          exact hjid (by simp [hid0])
      · intro hd
        exact absurd hd (by simp [recoveredState])

theorem strongInv_fail_found (db : DB) (sid : String) (st : SiteState)
    (retry_count : Int) (et em : Option String) (now : Int)
    (hfind : lookupSite db.sites sid = some st) (h : StrongInv db sid) :
    StrongInv (update_on_failure db sid retry_count et em now).2 sid := by
  obtain ⟨h1, h2, h3, h4⟩ := h
  cases hs : st.status with
  | up =>
    obtain ⟨hcid, hopen⟩ := (h4 st hfind).1 hs
    have e := update_on_failure_up_eq db sid st retry_count et em now hfind hs
    rw [e]
    refine ⟨show 1 ≤ db.next_incident_id + 1 by omega, ?_, ?_, ?_⟩
    · intro i hi
      rcases List.mem_append.mp hi with hi' | hi'
      · exact h2 i hi'
      · rw [List.mem_singleton.mp hi']
    · intro hnone
      simp only [lookupSite_writeSite_self, hfind] at hnone
      exact absurd hnone (by simp)
    · intro st' hst'
      simp only [lookupSite_writeSite_self, hfind] at hst'
      injection hst' with he
      subst he
      constructor
      · intro hu
        exact absurd hu (by simp [failedState])
      · intro _
        refine ⟨db.next_incident_id, rfl, h1, ?_⟩
        rw [openIncs, List.filter_append]
        have hb : openIncs db sid = List.filter
            (fun i => i.site_id == sid && i.ended_at == none) db.incidents := rfl
        rw [← hb, hopen]
        simp
  | down =>
    obtain ⟨iid, hcid, hge, hmap⟩ := (h4 st hfind).2 hs
    have e := update_on_failure_down_eq db sid st retry_count et em now hfind hs
    rw [e]
    refine ⟨h1, h2, ?_, ?_⟩
    · intro hnone
      rw [DB.setState] at hnone
      simp only [lookupSite_writeSite_self, hfind] at hnone
      exact absurd hnone (by simp)
    · intro st' hst'
      rw [DB.setState] at hst'
      simp only [lookupSite_writeSite_self, hfind] at hst'
      injection hst' with he
      subst he
      constructor
      · intro hu
        simp only at hu
        rw [hs] at hu
        exact absurd hu (by simp)
      · intro _
        exact ⟨iid, hcid, hge, by rw [openIncs_setState]; exact hmap⟩

theorem strongInv_remind_found (db : DB) (sid : String) (st : SiteState) (now : Int)
    (hfind : lookupSite db.sites sid = some st) (h : StrongInv db sid) :
    StrongInv (mark_reminder_sent db sid now).2 sid := by
  obtain ⟨h1, h2, h3, h4⟩ := h
  have e := mark_reminder_sent_eq db sid st now hfind
  rw [e]
  refine ⟨h1, h2, ?_, ?_⟩
  · intro hnone
    rw [DB.setState] at hnone
    simp only [lookupSite_writeSite_self, hfind] at hnone
    exact absurd hnone (by simp)
  · intro st' hst'
    rw [DB.setState] at hst'
    simp only [lookupSite_writeSite_self, hfind] at hst'
    injection hst' with he
    subst he
    constructor
    · intro hu
      simp only at hu
      obtain ⟨hcid, hopen⟩ := (h4 st hfind).1 hu
      exact ⟨hcid, by rw [openIncs_setState]; exact hopen⟩
    · intro hd
      simp only at hd
      obtain ⟨iid, hcid, hge, hmap⟩ := (h4 st hfind).2 hd
      exact ⟨iid, hcid, hge, by rw [openIncs_setState]; exact hmap⟩

theorem strongInv_applyOp (sid : String) (db : DB) (op : StoreOp)
    (h : StrongInv db sid) : StrongInv (applyOp sid db op) sid := by
  cases op with
  | gets now => exact strongInv_get_state db sid now h
  | success now =>
    rw [applyOp, update_on_success_get]
    exact strongInv_succ_found _ sid _ now (get_state_self db sid now)
      (strongInv_get_state db sid now h)
  | failure retry_count et em now =>
    rw [applyOp, update_on_failure_get]
    exact strongInv_fail_found _ sid _ retry_count et em now (get_state_self db sid now)
      (strongInv_get_state db sid now h)
  | reminder now =>
    rw [applyOp, mark_reminder_sent_get]
    exact strongInv_remind_found _ sid _ now (get_state_self db sid now)
      (strongInv_get_state db sid now h)

theorem strongInv_runOps (sid : String) (ops : List StoreOp) :
    ∀ db, StrongInv db sid → StrongInv (runOps sid db ops) sid := by
  induction ops with
  | nil => exact fun db h => h
  | cons op ops ih =>
    intro db h
    exact ih (applyOp sid db op) (strongInv_applyOp sid db op h)

/-- Claim C1: for every site and every sequence of StateStore operations
(`get_state`, `update_on_success`, `update_on_failure`, `mark_reminder_sent`)
starting from an absent (hence lazily created) row, after each operation the
status of the site is `DOWN` iff its `current_incident_id` is non-null, iff
exactly one incident row of that site has `ended_at = NULL`.  All prefixes of
a sequence are themselves sequences, so this covers every intermediate
state. -/
theorem C1_down_incident_invariant (sid : String) (ops : List StoreOp)
    (st : SiteState)
    (hst : lookupSite (runOps sid initDB ops).sites sid = some st) :
    (st.status = Status.down ↔ st.current_incident_id ≠ none)
    ∧ (st.status = Status.down ↔ (openIncs (runOps sid initDB ops) sid).length = 1) := by
  have h := strongInv_runOps sid ops initDB (strongInv_initDB sid)
  obtain ⟨-, -, -, h4⟩ := h
  obtain ⟨hu, hd⟩ := h4 st hst
  cases hs : st.status with
  | up =>
    obtain ⟨hcid, hopen⟩ := hu hs
    rw [hcid, hopen]
    simp
  | down =>
    obtain ⟨iid, hcid, hge, hmap⟩ := hd hs
    have hlen : (openIncs (runOps sid initDB ops) sid).length = 1 := by
      have hc := congrArg List.length hmap
      simpa using hc
    rw [hcid, hlen]
    simp

def opsW : List StoreOp :=
  [StoreOp.failure 3 (some etW) none 0, StoreOp.reminder 900,
   StoreOp.success 1000, StoreOp.gets 1100, StoreOp.failure 3 none none 1200]

def downRowW2 : SiteState :=
  { status := Status.down, fail_streak := 1, last_status_change := 1200,
    last_notify_at := some 1200, reminder_count := 0,
    next_reminder_at := some 2100, current_incident_id := some 2 }

theorem C1_witness :
    (downRowW2.status = Status.down ↔ downRowW2.current_incident_id ≠ none)
    ∧ (downRowW2.status = Status.down
        ↔ (openIncs (runOps siteS initDB opsW) siteS).length = 1) :=
  C1_down_incident_invariant siteS opsW downRowW2 (by decide)

/-- The intervals returned by successive `mark_reminder_sent` calls at the
given instants, threading the database through. -/
def reminderRun (db : DB) (sid : String) : List Int → List Nat
  | [] => []
  | t :: ts =>
    let r := mark_reminder_sent db sid t
    r.1 :: reminderRun r.2 sid ts

theorem reminderRun_eq (ts : List Int) : ∀ (db : DB) (sid : String) (st : SiteState),
    lookupSite db.sites sid = some st →
    reminderRun db sid ts
      = (List.range ts.length).map
          (fun k => get_next_reminder_interval (st.reminder_count + 1 + k)) := by
  induction ts with
  | nil =>
    intro db sid st _
    rfl
  | cons t ts ih =>
    intro db sid st hfind
    have e := mark_reminder_sent_eq db sid st t hfind
    simp only [reminderRun]
    rw [e]
    have hfind' : lookupSite (db.setState sid
        { st with reminder_count := st.reminder_count + 1,
                  next_reminder_at := some (calc_next_reminder (st.reminder_count + 1) t) }).sites sid
        = some { st with reminder_count := st.reminder_count + 1,
                         next_reminder_at := some (calc_next_reminder (st.reminder_count + 1) t) } := by
      rw [DB.setState]
      simp [lookupSite_writeSite_self, hfind]
    rw [ih _ sid _ hfind']
    dsimp only
    simp only [List.length_cons]
    rw [List.range_succ_eq_map, List.map_cons, List.map_map]
    refine congrArg₂ List.cons rfl ?_
    refine congrArg (fun f => List.map f (List.range ts.length)) ?_
    funext k
    simp only [Function.comp]
    refine congrArg get_next_reminder_interval ?_
    omega

/-- Claim C4: the reminder interval is `min(15 · 2^n, 240)` minutes, capped
at 240; the first seven values are 15, 30, 60, 120, 240, 240, 240.  Starting
from `reminder_count = 0` (the value set when a site goes `DOWN`, which also
schedules the first reminder 15 minutes out), each `mark_reminder_sent`
returns the next interval and reschedules `next_reminder_at` that many
minutes after the call, so the initial 15-minute gap followed by the
successive returned intervals is exactly `interval 0, interval 1, …` —
15, 30, 60, 120, 240, 240, 240 for an incident with six reminders sent. -/
theorem C4_reminder_interval_schedule (db : DB) (sid : String) (st : SiteState)
    (ts : List Int) (now : Int)
    (hfind : lookupSite db.sites sid = some st) (h0 : st.reminder_count = 0) :
    (∀ n, get_next_reminder_interval n = min (15 * 2 ^ n) 240)
    ∧ (∀ n, get_next_reminder_interval n ≤ 240)
    ∧ (List.range 7).map get_next_reminder_interval = [15, 30, 60, 120, 240, 240, 240]
    ∧ (mark_reminder_sent db sid now).1 = get_next_reminder_interval 1
    ∧ lookupSite (mark_reminder_sent db sid now).2.sites sid
        = some { st with reminder_count := 1,
                         next_reminder_at := some (now + 60 * (get_next_reminder_interval 1 : Int)) }
    ∧ get_next_reminder_interval 0 :: reminderRun db sid ts
        = (List.range (ts.length + 1)).map get_next_reminder_interval := by
  have e := mark_reminder_sent_eq db sid st now hfind
  rw [h0] at e
  refine ⟨fun n => rfl, fun n => Nat.min_le_right _ _, by decide, by rw [e], ?_, ?_⟩
  · rw [e, DB.setState]
    simp [lookupSite_writeSite_self, hfind, h0, calc_next_reminder]
  · rw [reminderRun_eq ts db sid st hfind, h0]
    rw [List.range_succ_eq_map, List.map_cons, List.map_map]
    refine congrArg₂ List.cons rfl ?_
    refine congrArg (fun f => List.map f (List.range ts.length)) ?_
    funext k
    simp only [Function.comp]
    refine congrArg get_next_reminder_interval ?_
    omega

theorem C4_witness :
    (∀ n, get_next_reminder_interval n = min (15 * 2 ^ n) 240)
    ∧ (∀ n, get_next_reminder_interval n ≤ 240)
    ∧ (List.range 7).map get_next_reminder_interval = [15, 30, 60, 120, 240, 240, 240]
    ∧ (mark_reminder_sent dbDownW siteS 900).1 = get_next_reminder_interval 1
    ∧ lookupSite (mark_reminder_sent dbDownW siteS 900).2.sites siteS
        = some { downRowW with reminder_count := 1,
                               next_reminder_at := some (900 + 60 * (get_next_reminder_interval 1 : Int)) }
    ∧ get_next_reminder_interval 0
        :: reminderRun dbDownW siteS [1000, 2000, 3000, 4000, 5000, 6000]
        = (List.range (([1000, 2000, 3000, 4000, 5000, 6000] : List Int).length + 1)).map
            get_next_reminder_interval :=
  C4_reminder_interval_schedule dbDownW siteS downRowW
    [1000, 2000, 3000, 4000, 5000, 6000] 900 (by decide) (by decide)

/-- Embeds the `CheckResult` dataclass of monitor/checker.py. -/
structure CheckResult where
  success : Bool
  status_code : Option Int := none
  response_time_ms : Option Int := none
  error : Option String := none
  error_type : Option String := none
  html_content : Option String := none
deriving Repr, DecidableEq

/-- The `for attempt in range(retry_count)` loop of `check_with_retry`
(monitor/retry_logic.py): `i` is the index of the next attempt, `left` the
attempts remaining, `last` the Python `last_result` variable (initially
`None`).  The i-th probe outcome is supplied by `attempts`. -/
def runAttempts (attempts : Nat → CheckResult) : Nat → Nat → Option CheckResult →
    Option CheckResult
  | _, 0, last => last
  | i, left + 1, last =>
    let result := attempts i
    if result.success then some result
    else runAttempts attempts (i + 1) left (some result)

/-- Embeds `check_with_retry(site, defaults)`: the loop from attempt 0 with
`retry_count` iterations, returning `last_result` (initially `None`) when the
loop body never returns. -/
def check_with_retry (attempts : Nat → CheckResult) (retry_count : Nat) :
    Option CheckResult :=
  runAttempts attempts 0 retry_count none

theorem runAttempts_all_fail (attempts : Nat → CheckResult) :
    ∀ (left i : Nat) (last : Option CheckResult), 1 ≤ left →
      (∀ k, k < left → (attempts (i + k)).success = false) →
      runAttempts attempts i left last = some (attempts (i + left - 1)) := by
  intro left
  induction left with
  | zero => intro i last h; omega
  | succ left ih =>
    intro i last _ hall
    have h0 : (attempts i).success = false := by
      have := hall 0 (by omega)
      simpa using this
    rcases Nat.eq_zero_or_pos left with hz | hp
    · subst hz
      simp [runAttempts, h0]
    · rw [runAttempts]
      simp only [h0, Bool.false_eq_true, if_false]
      have := ih (i + 1) (some (attempts i)) hp
        (fun k hk => by
          have := hall (k + 1) (by omega)
          simpa [Nat.add_assoc, Nat.add_comm 1 k] using this)
      rw [this]
      refine congrArg (fun j => some (attempts j)) ?_
      omega

theorem runAttempts_first_success (attempts : Nat → CheckResult) :
    ∀ (left i : Nat) (last : Option CheckResult) (ofs : Nat), ofs < left →
      (attempts (i + ofs)).success = true →
      (∀ j, j < ofs → (attempts (i + j)).success = false) →
      runAttempts attempts i left last = some (attempts (i + ofs)) := by
  intro left
  induction left with
  | zero => intro i last ofs h; omega
  | succ left ih =>
    intro i last ofs hlt hsucc hbefore
    rcases Nat.eq_zero_or_pos ofs with hz | hp
    · subst hz
      simp only [Nat.add_zero] at hsucc
      simp [runAttempts, hsucc]
    · have h0 : (attempts i).success = false := by
        have := hbefore 0 hp
        simpa using this
      rw [runAttempts]
      simp only [h0, Bool.false_eq_true, if_false]
      have := ih (i + 1) (some (attempts i)) (ofs - 1) (by omega)
        (by
          have hofs : i + 1 + (ofs - 1) = i + ofs := by omega
          rw [hofs]
          exact hsucc)
        (fun j hj => by
          have := hbefore (j + 1) (by omega)
          simpa [Nat.add_assoc, Nat.add_comm 1 j] using this)
      rw [this]
      refine congrArg (fun j => some (attempts j)) ?_
      omega

/-- Claim C10: `check_with_retry` produces a `CheckResult` only under the
precondition `retry_count ≥ 1`.  With `retry_count = 0` the attempt loop
never runs and the function falls through to `return last_result`, i.e.
`None` — not a `CheckResult` — so the subsequent scheduler access
`result.success` fails on it.  With `retry_count ≥ 1` it returns the
result of the first successful attempt, or the failing result of the final attempt
when every attempt fails. -/
theorem C10_retry_count_precondition (attempts : Nat → CheckResult)
    (retry_count : Nat) :
    check_with_retry attempts 0 = none
    ∧ (1 ≤ retry_count →
        (∀ k, k < retry_count → (attempts k).success = false) →
        check_with_retry attempts retry_count = some (attempts (retry_count - 1)))
    ∧ (∀ i, i < retry_count → (attempts i).success = true →
        (∀ j, j < i → (attempts j).success = false) →
        check_with_retry attempts retry_count = some (attempts i)) := by
  refine ⟨rfl, ?_, ?_⟩
  · intro h1 hall
    have := runAttempts_all_fail attempts retry_count 0 none h1
      (fun k hk => by simpa using hall k hk)
    simpa [check_with_retry] using this
  · intro i hlt hsucc hbefore
    have := runAttempts_first_success attempts retry_count 0 none i hlt
      (by simpa using hsucc) (fun j hj => by simpa using hbefore j hj)
    simpa [check_with_retry] using this

/-- A probe schedule whose first two attempts fail and whose third succeeds. -/
def attemptsW : Nat → CheckResult := fun k =>
  if k < 2 then { success := false, error_type := some etW }
  else { success := true, status_code := some 200 }

theorem C10_witness :
    check_with_retry attemptsW 0 = none
    ∧ check_with_retry attemptsW 4 = some (attemptsW 2) :=
  ⟨(C10_retry_count_precondition attemptsW 4).1,
   (C10_retry_count_precondition attemptsW 4).2.2 2 (by decide) (by decide)
     (by decide)⟩

/-- Substring operator of Python, i.e. `needle in hay` on character lists. -/
def occursIn (needle : List Char) : List Char → Bool
  | [] => needle.isEmpty
  | c :: rest => needle.isPrefixOf (c :: rest) || occursIn needle rest

/-- Embeds the `KeywordCheckResult` dataclass of monitor/keyword_checker.py. -/
structure KeywordCheckResult where
  found : Bool
  missing_keyword : Option String := none
  found_keywords : Option (List String) := none
deriving Repr, DecidableEq

/-- The `for keyword in keywords` loop of `check_keywords`, carrying the
`found_keywords` accumulator. -/
def checkKeywordsLoop (html_content : String) (acc : List String) :
    List String → KeywordCheckResult
  | [] => { found := true, found_keywords := some acc }
  | keyword :: rest =>
    if occursIn keyword.data html_content.data then
      checkKeywordsLoop html_content (acc ++ [keyword]) rest
    else
      { found := false, missing_keyword := some keyword, found_keywords := some acc }

/-- Embeds `check_keywords(html_content, keywords)` of monitor/keyword_checker.py. -/
def check_keywords (html_content : String) (keywords : List String) :
    KeywordCheckResult :=
  if keywords.isEmpty then { found := true, found_keywords := some [] }
  else checkKeywordsLoop html_content [] keywords

theorem checkKeywordsLoop_eq (html_content : String) :
    ∀ (keywords acc : List String),
      checkKeywordsLoop html_content acc keywords =
        (match keywords.dropWhile (fun k => occursIn k.data html_content.data) with
         | [] =>
           { found := true, missing_keyword := none,
             found_keywords := some (acc ++ keywords) }
         | k :: _ =>
           { found := false, missing_keyword := some k,
             found_keywords :=
               some (acc ++ keywords.takeWhile
                 (fun k => occursIn k.data html_content.data)) }) := by
  intro keywords
  induction keywords with
  | nil =>
    intro acc
    simp [checkKeywordsLoop, List.dropWhile]
  | cons keyword rest ih =>
    intro acc
    by_cases h : occursIn keyword.data html_content.data
    · rw [checkKeywordsLoop, if_pos h, ih (acc ++ [keyword])]
      simp only [List.dropWhile_cons, List.takeWhile_cons, h, if_true]
      rcases hd : rest.dropWhile (fun k => occursIn k.data html_content.data) with _ | ⟨k, l⟩
      · simp
      · simp
    · rw [checkKeywordsLoop, if_neg h]
      rw [Bool.not_eq_true] at h
      simp only [List.dropWhile_cons, List.takeWhile_cons, h]
      simp

/-- Claim C8: `check_keywords` scans the keywords in the given order as
literal substrings of the body and stops at the first absent one, reporting
it as `missing_keyword` together with exactly the prefix of keywords found
before it (all keywords when none is missing).  Concretely, with keywords
["A", "B"]: a body containing only "A" yields missing "B" with found ["A"];
a body containing neither yields missing "A" with found []. -/
theorem C8_keyword_scan_order (html_content : String) (keywords : List String) :
    (check_keywords html_content keywords =
      (match keywords.dropWhile (fun k => occursIn k.data html_content.data) with
       | [] =>
         { found := true, missing_keyword := none, found_keywords := some keywords }
       | k :: _ =>
         { found := false, missing_keyword := some k,
           found_keywords :=
             some (keywords.takeWhile (fun k => occursIn k.data html_content.data)) }))
    ∧ check_keywords ("xAy") [("A"), ("B")]
        = { found := false, missing_keyword := some ("B"),
            found_keywords := some [("A")] }
    ∧ check_keywords ("xy") [("A"), ("B")]
        = { found := false, missing_keyword := some ("A"), found_keywords := some [] }
    ∧ check_keywords ("xAyBz") [("A"), ("B")]
        = { found := true, missing_keyword := none,
            found_keywords := some [("A"), ("B")] } := by
  refine ⟨?_, by decide, by decide, by decide⟩
  rcases hk : keywords with _ | ⟨k, l⟩
  · simp [check_keywords, List.dropWhile]
  · rw [check_keywords, if_neg (by simp)]
    rw [checkKeywordsLoop_eq html_content (k :: l) []]
    rcases hd : (k :: l).dropWhile (fun k => occursIn k.data html_content.data)
      with _ | ⟨m, r⟩
    · simp
    · simp

/-- ASCII case folding of one character, the fragment of Python
`str.lower()` relevant to certificate names and punycoded hostnames (which
are ASCII). -/
def lowerChar (c : Char) : Char :=
  if ('A' ≤ c ∧ c ≤ 'Z') then Char.ofNat (c.toNat + 32) else c

/-- Models `s.lower()` on a character list. -/
def lowerCL (l : List Char) : List Char := l.map lowerChar

def dotChar : Char := '.'

/-- The `"*."` wildcard marker tested by `name_lower.startswith("*.")`. -/
def starDot : List Char := ['*', '.']

/-- Models `h.split(".", 1)`: `some rest` is the part after the first dot when the
split yields two parts, `none` when `h` contains no dot. -/
def afterFirstDot : List Char → Option (List Char)
  | [] => none
  | c :: rest => if c = dotChar then some rest else afterFirstDot rest

/-- The body of the `for name in all_names` loop of `_hostname_matches_cert`:
does one certificate name match any of the candidate hostnames?  `hosts` is
the `hostnames_to_check` set (already lowercased). -/
def matchOneName (hosts : List (List Char)) (name : String) : Bool :=
  let name_lower := lowerCL name.data
  if starDot.isPrefixOf name_lower then
    let wildcard_domain := name_lower.drop 2
    hosts.any (fun h =>
      match afterFirstDot h with
      | some rest => rest == wildcard_domain
      | none => false)
  else
    hosts.contains name_lower

/-- Models `if cn: all_names.append(cn)` — Python string truthiness: an empty CN is
not appended. -/
def cnList : Option String → List String
  | some c => if c.data.isEmpty then [] else [c]
  | none => []

/-- Embeds `_hostname_matches_cert(hostname, cn, san_list)` of
monitor/ssl_checker.py.  `toPuny` is `_to_punycode`, i.e. the Python
standard-library IDNA codec (external to this repository), passed as a
function argument. -/
def hostname_matches_cert (toPuny : String → String) (hostname : String)
    (cn : Option String) (san_list : List String) : Bool :=
  let all_names := san_list ++ cnList cn
  let ascii_hostname := toPuny hostname
  let hostnames_to_check := [lowerCL hostname.data, lowerCL ascii_hostname.data]
  all_names.any (matchOneName hostnames_to_check)

theorem matchOneName_congr (hosts : List (List Char)) (name name' : String)
    (h : lowerCL name.data = lowerCL name'.data) :
    matchOneName hosts name = matchOneName hosts name' := by
  rw [matchOneName, matchOneName, h]

theorem any_matchOneName_congr (hosts : List (List Char)) :
    ∀ (l l' : List String),
      List.Forall₂ (fun a b => lowerCL a.data = lowerCL b.data) l l' →
      l.any (matchOneName hosts) = l'.any (matchOneName hosts) := by
  intro l l' h
  induction h with
  | nil => rfl
  | cons hab _ ih =>
    simp only [List.any_cons, ih, matchOneName_congr hosts _ _ hab]

theorem lowerCL_nil_iff (l : List Char) : lowerCL l = [] ↔ l = [] := by
  rw [lowerCL]
  exact List.map_eq_nil_iff

theorem cnList_congr (hosts : List (List Char)) (cn cn' : Option String)
    (h : cn.map (fun c => lowerCL c.data) = cn'.map (fun c => lowerCL c.data)) :
    (cnList cn).any (matchOneName hosts) = (cnList cn').any (matchOneName hosts) := by
  rcases cn with _ | c <;> rcases cn' with _ | c'
  · rfl
  · simp at h
  · simp at h
  · simp only [Option.map] at h
    injection h with h
    have hempty : c.data.isEmpty = c'.data.isEmpty := by
      rcases hc : c.data with _ | ⟨a, l⟩ <;> rcases hc' : c'.data with _ | ⟨a', l'⟩
      · rfl
      · rw [hc, hc'] at h
        exact absurd h (by simp [lowerCL])
      · rw [hc, hc'] at h
        exact absurd h (by simp [lowerCL])
      · rfl
    rw [cnList, cnList, ← hempty]
    by_cases he : c.data.isEmpty
    · simp [he]
    · simp only [he, if_neg, if_false, Bool.false_eq_true]
      simp only [List.any_cons, List.any_nil]
      rw [matchOneName_congr hosts c c' h]

/-- Claim C7: hostname matching against the CN and SANs of a certificate is
case-insensitive on both sides (the result depends only on the lowercased
hostname, its lowercased IDNA form, and the lowercased certificate names); a
name with exactly one leading wildcard label matches exactly the hostnames
with one extra leading label (`*.example.com` matches `a.example.com` but
neither `example.com` nor `a.b.example.com`); and the hostname is also
compared in its IDNA ASCII (punycode) form, so a hostname matches a
certificate name listing its punycode encoding. -/
theorem C7_hostname_matching (toPuny : String → String)
    (hostname hostname' : String) (cn cn' : Option String)
    (san_list san_list' : List String)
    (hh : lowerCL hostname.data = lowerCL hostname'.data)
    (hp : lowerCL (toPuny hostname).data = lowerCL (toPuny hostname').data)
    (hc : cn.map (fun c => lowerCL c.data) = cn'.map (fun c => lowerCL c.data))
    (hs : List.Forall₂ (fun a b => lowerCL a.data = lowerCL b.data) san_list san_list') :
    (hostname_matches_cert toPuny hostname cn san_list
       = hostname_matches_cert toPuny hostname' cn' san_list')
    ∧ hostname_matches_cert (fun s => s) ("a.example.com") none [("*.example.com")] = true
    ∧ hostname_matches_cert (fun s => s) ("example.com") none [("*.example.com")] = false
    ∧ hostname_matches_cert (fun s => s) ("a.b.example.com") none [("*.example.com")]
        = false
    ∧ (∀ (host name : String), name ∈ san_list →
        lowerCL name.data = lowerCL (toPuny host).data →
        starDot.isPrefixOf (lowerCL name.data) = false →
        hostname_matches_cert toPuny host cn san_list = true) := by
  refine ⟨?_, by decide, by decide, by decide, ?_⟩
  · rw [hostname_matches_cert, hostname_matches_cert, hh, hp]
    rw [List.any_append, List.any_append]
    rw [any_matchOneName_congr _ san_list san_list' hs]
    rw [cnList_congr _ cn cn' hc]
  · intro host name hmem hname hpre
    rw [hostname_matches_cert, List.any_append]
    have h1 : san_list.any (matchOneName
        [lowerCL host.data, lowerCL (toPuny host).data]) = true := by
      rw [List.any_eq_true]
      refine ⟨name, hmem, ?_⟩
      rw [matchOneName]
      rw [if_neg (by rw [hpre]; exact Bool.false_ne_true)]
      rw [hname]
      simp
    rw [h1]
    rfl

def punyW : String := "punycoded.example"

theorem C7_witness :
    (hostname_matches_cert (fun _ => punyW) ("MiXeD.Example") none [("*.EXAMPLE")]
       = hostname_matches_cert (fun _ => punyW) ("mixed.example") none [("*.example")])
    ∧ hostname_matches_cert (fun s => s) ("a.example.com") none [("*.example.com")] = true
    ∧ hostname_matches_cert (fun s => s) ("example.com") none [("*.example.com")] = false
    ∧ hostname_matches_cert (fun s => s) ("a.b.example.com") none [("*.example.com")]
        = false
    ∧ (∀ (host name : String), name ∈ [("*.EXAMPLE")] →
        lowerCL name.data = lowerCL ((fun _ => punyW) host).data →
        starDot.isPrefixOf (lowerCL name.data) = false →
        hostname_matches_cert (fun _ => punyW) host none [("*.EXAMPLE")] = true) :=
  C7_hostname_matching (fun _ => punyW) ("MiXeD.Example") ("mixed.example")
    none none [("*.EXAMPLE")] [("*.example")] (by decide) (by decide) (by decide)
    (List.Forall₂.cons (by decide) List.Forall₂.nil)

/-- Insertion step of `ORDER BY started_at DESC`. -/
def insertDesc (i : Incident) : List Incident → List Incident
  | [] => [i]
  | j :: rest =>
    if j.started_at ≤ i.started_at then i :: j :: rest else j :: insertDesc i rest

/-- Models `ORDER BY started_at DESC` (insertion sort, descending). -/
def sortDesc : List Incident → List Incident
  | [] => []
  | i :: rest => insertDesc i (sortDesc rest)

/-- Embeds `Database.get_site_incidents`: the incidents of the site with
`started_at >= now - days`, newest first, at most `limit` rows. -/
def get_site_incidents (db : DB) (site_id : String) (days : Nat) (limit : Nat)
    (now : Int) : List Incident :=
  let since := now - (days : Int) * 86400
  (sortDesc (db.incidents.filter
    (fun i => i.site_id == site_id && decide (since ≤ i.started_at)))).take limit

/-- Models Python `round(x, 2)`: round to two decimal places. -/
def round2 (q : ℚ) : ℚ := ((round (q * 100) : ℤ) : ℚ) / 100

/-- Embeds the `SiteStats` dataclass. -/
structure SiteStats where
  site_id : String
  uptime_7d : ℚ
  uptime_30d : ℚ
  incidents_30d : Nat
  avg_downtime_seconds : Int
  last_incident_at : Option Int
deriving Repr, DecidableEq

/-- The nested `calc_downtime` helper of `Database.get_site_stats`: clips
each incident of the (already window-restricted) list to
`[max(started_at, period_start), min(ended_at or now, now)]` and sums the
positive overlaps. -/
def calc_downtime (incidents : List Incident) (days : Nat) (now : Int) : Int :=
  incidents.foldl
    (fun total inc =>
      let started := inc.started_at
      let ended := match inc.ended_at with
        | some e => e
        | none => now
      let started' := max started (now - (days : Int) * 86400)
      let ended' := min ended now
      if started' < ended' then total + (ended' - started') else total) 0

/-- Embeds `Database.get_site_stats`. -/
def get_site_stats (db : DB) (site_id : String) (now : Int) : SiteStats :=
  let incidents_7d := get_site_incidents db site_id 7 100 now
  let incidents_30d := get_site_incidents db site_id 30 100 now
  let downtime_7d := calc_downtime incidents_7d 7 now
  let downtime_30d := calc_downtime incidents_30d 30 now
  let total_7d : Int := 7 * 24 * 3600
  let total_30d : Int := 30 * 24 * 3600
  let uptime_7d : ℚ :=
    if 0 < total_7d then 100 * (1 - (downtime_7d : ℚ) / (total_7d : ℚ)) else 100
  let uptime_30d : ℚ :=
    if 0 < total_30d then 100 * (1 - (downtime_30d : ℚ) / (total_30d : ℚ)) else 100
  let closed_incidents := incidents_30d.filter (fun i => truthyDur i.duration_seconds)
  let avg_downtime : Int :=
    if closed_incidents.isEmpty then 0
    else Int.fdiv ((closed_incidents.map (fun i => i.duration_seconds.getD 0)).sum)
      (closed_incidents.length : Int)
  { site_id := site_id,
    uptime_7d := round2 uptime_7d,
    uptime_30d := round2 uptime_30d,
    incidents_30d := incidents_30d.length,
    avg_downtime_seconds := avg_downtime,
    last_incident_at := (incidents_30d.head?).map Incident.started_at }

/-- Window downtime exactly as claim C5 words it: summed over ALL incidents
of the site overlapping the window — including incidents started before the
window — of the overlap of `[max(started_at, windowStart),
min(ended_at or now, now)]`. -/
def claimWindowDowntime (db : DB) (site_id : String) (days : Nat) (now : Int) : Int :=
  ((db.incidents.filter (fun i => i.site_id == site_id)).map
    (fun i =>
      let e := min (i.ended_at.getD now) now
      let s := max i.started_at (now - (days : Int) * 86400)
      if s < e then e - s else 0)).sum

/-- The uptime percentage claim C5 derives from `claimWindowDowntime`. -/
def claimUptime (db : DB) (site_id : String) (days : Nat) (now : Int) : ℚ :=
  round2 (100 * (1 - (claimWindowDowntime db site_id days now : ℚ)
    / (((days : Int) * 86400 : Int) : ℚ)))

/-- Average downtime exactly as claim C5 words it: the mean of
`duration_seconds` over ALL closed incidents (those with `ended_at` set) in
the 30-day window. -/
def claimAvgDowntime (db : DB) (site_id : String) (now : Int) : Int :=
  let closed := (get_site_incidents db site_id 30 100 now).filter
    (fun i => i.ended_at != none)
  if closed.isEmpty then 0
  else Int.fdiv ((closed.map (fun i => i.duration_seconds.getD 0)).sum)
    (closed.length : Int)

/-- A closed incident that started before the 7-day window and ended one day
inside it: it overlaps the window but `get_site_incidents` drops it. -/
def exDB5 : DB :=
  { sites := [], mutes := [], next_incident_id := 2,
    incidents := [{ id := 1, site_id := siteS, started_at := 172800,
                    ended_at := some 345600, duration_seconds := some 172800 }] }

/-- Two closed incidents in the 30-day window, one of duration 0 (opened and
closed within the same second) and one of duration 10. -/
def exDB5b : DB :=
  { sites := [], mutes := [], next_incident_id := 3,
    incidents := [{ id := 1, site_id := siteS, started_at := 300000,
                    ended_at := some 300000, duration_seconds := some 0 },
                  { id := 2, site_id := siteS, started_at := 400000,
                    ended_at := some 400010, duration_seconds := some 10 }] }

def exNow5 : Int := 864000

/-- Counterexample to claim C5 as stated.  (1) An incident overlapping the
7-day window but started before it is ignored by the code (`uptime_7d = 100`)
while the formula of the claim charges its one-day overlap
(uptime `8571/100 = 85.71`).  (2) `avg_downtime_seconds` is not the mean over
all closed incidents in the 30-day window: a zero-duration closed incident is
excluded by the Python truthiness filter `if i.duration_seconds`, so the code
yields 10 where the mean of the claim over closed incidents yields 5. -/
theorem C5_counterexample :
    (get_site_stats exDB5 siteS exNow5).uptime_7d = 100
    ∧ claimUptime exDB5 siteS 7 exNow5 = 8571 / 100
    ∧ (get_site_stats exDB5 siteS exNow5).uptime_7d ≠ claimUptime exDB5 siteS 7 exNow5
    ∧ (get_site_stats exDB5b siteS exNow5).avg_downtime_seconds = 10
    ∧ claimAvgDowntime exDB5b siteS exNow5 = 5
    ∧ (get_site_stats exDB5b siteS exNow5).avg_downtime_seconds
        ≠ claimAvgDowntime exDB5b siteS exNow5 := by
  have h1 : get_site_incidents exDB5 siteS 7 100 exNow5 = [] := by decide
  have h7 : (get_site_stats exDB5 siteS exNow5).uptime_7d = 100 := by
    rw [get_site_stats]
    dsimp only
    rw [h1]
    norm_num [calc_downtime, round2, round_eq]
  have hcd : claimWindowDowntime exDB5 siteS 7 exNow5 = 86400 := by decide
  have hcu : claimUptime exDB5 siteS 7 exNow5 = 8571 / 100 := by
    rw [claimUptime, hcd]
    rw [round2, round_eq]
    norm_num
  have havg : (get_site_stats exDB5b siteS exNow5).avg_downtime_seconds = 10 := by
    decide
  have hcavg : claimAvgDowntime exDB5b siteS exNow5 = 5 := by decide
  refine ⟨h7, hcu, ?_, havg, hcavg, ?_⟩
  · rw [h7, hcu]
    norm_num
  · rw [havg, hcavg]
    norm_num

theorem mem_insertDesc (i x : Incident) (l : List Incident) :
    x ∈ insertDesc i l ↔ x ∈ i :: l := by
  induction l with
  | nil => rfl
  | cons j rest ih =>
    rw [insertDesc]
    by_cases h : j.started_at ≤ i.started_at
    · simp [h]
    · simp only [if_neg h, List.mem_cons, ih]
      tauto

theorem mem_sortDesc (x : Incident) : ∀ l : List Incident, x ∈ sortDesc l ↔ x ∈ l := by
  intro l
  induction l with
  | nil => rfl
  | cons i rest ih =>
    rw [sortDesc, mem_insertDesc]
    simp [ih]

theorem get_site_incidents_single (db : DB) (sid : String) (inc : Incident)
    (days : Nat) (now : Int)
    (hincs : db.incidents.filter (fun i => i.site_id == sid) = [inc])
    (hs : now - (days : Int) * 86400 ≤ inc.started_at) :
    get_site_incidents db sid days 100 now = [inc] := by
  rw [get_site_incidents]
  have hsw : (fun i : Incident =>
        i.site_id == sid && decide (now - (days : Int) * 86400 ≤ i.started_at))
      = (fun i : Incident =>
        decide (now - (days : Int) * 86400 ≤ i.started_at) && (i.site_id == sid)) :=
    funext fun i => Bool.and_comm _ _
  rw [hsw, ← List.filter_filter, hincs]
  rw [List.filter_cons_of_pos (by simpa using hs), List.filter_nil]
  rfl

theorem calc_downtime_single (inc : Incident) (days : Nat) (now : Int)
    (hs : now - (days : Int) * 86400 ≤ inc.started_at)
    (hended : inc.ended_at = some (inc.started_at + 3600))
    (hend_le : inc.started_at + 3600 ≤ now) :
    calc_downtime [inc] days now = 3600 := by
  rw [calc_downtime, List.foldl_cons, List.foldl_nil, hended]
  dsimp only
  rw [max_eq_left hs, min_eq_left hend_le]
  rw [if_pos (by omega)]
  ring

/-- Claim C5 amended: `get_site_stats` restricts each window to the (at most
100 most recent) incidents whose `started_at` lies within the window — an
incident started before the window start contributes nothing even if it
overlaps the window — then sums the clipped overlaps, and
`avg_downtime_seconds` is the integer floor of the mean `duration_seconds`
over the incidents of the window with non-null, nonzero duration.  For a single
closed incident of exactly 3600 seconds fully inside the 7-day window the
published uptimes and average are as the claim computes them. -/
theorem C5_uptime_stats_amended (db : DB) (sid : String) (now : Int) (inc : Incident)
    (hincs : db.incidents.filter (fun i => i.site_id == sid) = [inc])
    (hstart7 : now - 7 * 86400 ≤ inc.started_at)
    (hended : inc.ended_at = some (inc.started_at + 3600))
    (hend_le : inc.started_at + 3600 ≤ now)
    (hdur : inc.duration_seconds = some 3600) :
    (get_site_stats db sid now).uptime_7d = round2 (100 * (1 - 3600 / 604800))
    ∧ (get_site_stats db sid now).uptime_30d = round2 (100 * (1 - 3600 / 2592000))
    ∧ (get_site_stats db sid now).avg_downtime_seconds = 3600
    ∧ (get_site_stats db sid now).incidents_30d = 1
    ∧ (∀ j ∈ db.incidents, j.started_at < now - 7 * 86400 →
        j ∉ get_site_incidents db sid 7 100 now) := by
  have hs7 : now - ((7 : Nat) : Int) * 86400 ≤ inc.started_at := by
    push_cast
    omega
  have hs30 : now - ((30 : Nat) : Int) * 86400 ≤ inc.started_at := by
    push_cast
    omega
  have h7 := get_site_incidents_single db sid inc 7 now hincs hs7
  have h30 := get_site_incidents_single db sid inc 30 now hincs hs30
  have hc7 := calc_downtime_single inc 7 now hs7 hended hend_le
  have hc30 := calc_downtime_single inc 30 now hs30 hended hend_le
  refine ⟨?_, ?_, ?_, ?_, ?_⟩
  · rw [get_site_stats]
    dsimp only
    rw [h7, hc7]
    norm_num
  · rw [get_site_stats]
    dsimp only
    rw [h30, hc30]
    norm_num
  · rw [get_site_stats]
    dsimp only
    rw [h30]
    rw [List.filter_cons_of_pos (by simp [truthyDur, hdur]), List.filter_nil]
    simp [hdur]
  · rw [get_site_stats]
    dsimp only
    rw [h30]
    rfl
  · intro j hj hlt hmem
    rw [get_site_incidents] at hmem
    have hmem' := List.take_subset 100 _ hmem
    rw [mem_sortDesc] at hmem'
    have hp := (List.mem_filter.mp hmem').2
    simp only [Bool.and_eq_true, decide_eq_true_eq] at hp
    omega

def incW5 : Incident :=
  { id := 1, site_id := siteS, started_at := 500000,
    ended_at := some 503600, duration_seconds := some 3600 }

def exDB5c : DB :=
  { sites := [], mutes := [], next_incident_id := 2, incidents := [incW5] }

theorem C5_witness :
    (get_site_stats exDB5c siteS 864000).uptime_7d = round2 (100 * (1 - 3600 / 604800))
    ∧ (get_site_stats exDB5c siteS 864000).uptime_30d
        = round2 (100 * (1 - 3600 / 2592000))
    ∧ (get_site_stats exDB5c siteS 864000).avg_downtime_seconds = 3600
    ∧ (get_site_stats exDB5c siteS 864000).incidents_30d = 1
    ∧ (∀ j ∈ exDB5c.incidents, j.started_at < 864000 - 7 * 86400 →
        j ∉ get_site_incidents exDB5c siteS 7 100 864000) :=
  C5_uptime_stats_amended exDB5c siteS 864000 incW5 (by decide) (by decide)
    (by decide) (by decide) (by decide)

end SiteChecker
